import Mathlib

/-!
Verification of the on-page navigation synchronization subsystem of the
`design-patterns` documentation site.

We shallowly embed the relevant TypeScript/React components as pure Lean
functions over explicit inputs (the static `patterns` list, a document's
heading-tag list, the current pathname, and an abstract DOM lookup).
-/

/-- Prepends a character to the first segment of a split result (the
non-separator branch of the split loop). -/
def consHead (c : Char) : List (List Char) → List (List Char)
  | [] => [[c]]
  | r :: rs => (c :: r) :: rs

/-- JavaScript `String.prototype.split` with a single-character separator,
modelled on the character list: splits at every occurrence of the
separator, yielding `n+1` (possibly empty) segments for `n` occurrences.
The result is always nonempty; splitting the empty list yields `[[]]`,
matching JS `"".split(sep) === [""]`. -/
def splitOnChar (sep : Char) : List Char → List (List Char)
  | [] => [[]]
  | c :: cs =>
    if c = sep then [] :: splitOnChar sep cs
    else consHead c (splitOnChar sep cs)

/-- `s.split(sep)` for a string and a one-character separator, as in the
source's `link.split("_")` and `pathname.split("/")`. -/
def jsSplit (s : String) (sep : Char) : List String :=
  (splitOnChar sep s.data).map (fun l => String.mk l)

/-! ## Heading-tag parsing (RightSideNav.tsx line 21, SmallDeviceNav.tsx line 28)

Both components destructure `const [id, level] = link.split("_")`:
`id` is the first segment (always present, since split never returns an
empty array) and `level` is the second segment, `undefined` when the tag
contains no underscore. -/

/-- The result of `const [id, level] = link.split("_")`. -/
structure ParsedTag where
  id : String
  level : Option String
  deriving Repr, DecidableEq

/-- Parses one heading-tag string exactly as the two nav components do. -/
def parseTag (link : String) : ParsedTag :=
  let parts := jsSplit link '_'
  { id := parts.headD "", level := parts.get? 1 }

/-! ## Abstract DOM and the intersection-observer hook -/

/-- The data of a DOM element the nav subsystem reads: its bounding-rect
top (used by the Category Tree scroll effect) and whether it currently
intersects the shrunk viewport (read through the intersection observer). -/
structure Elem where
  boundingTop : Int
  intersecting : Bool
  deriving Repr, DecidableEq

/-- A snapshot of `document`: `getElementById` as a partial map from id
to element. -/
def Dom := String → Option Elem

/-- Modelled from the spec: the `useIntersectionObserver` hook
(imported by `RightLink.tsx` from `@/hooks/useIntersectionObserver`; the
hook's own file is not in the snapshot). Per §4.1, it observes the
referenced element and yields an entry whose `isIntersecting` reflects
viewport intersection; when the ref holds no element (the id was never
found), no entry is ever produced and the signal stays absent. -/
def observerEntry (dom : Dom) (id : String) : Option Bool :=
  (dom id).map (fun e => e.intersecting)

/-! ## RightLink.tsx (lines 11-31) -/

/-- The rendered view of one `RightLink`: an anchor `#<id>`, the
visibility-driven color state, and the hyphen-to-space label. -/
structure RightLinkView where
  href : String
  isVisible : Bool
  label : String
  deriving Repr, DecidableEq

/-- `RightLink`: `element.current = document.getElementById(id)`;
`isVisible = !!entry?.isIntersecting`; renders
`<Link href={#id}>` with the visibility color class. -/
def RightLink (dom : Dom) (id : String) : RightLinkView :=
  { href := "#" ++ id
    isVisible := (observerEntry dom id).getD false
    label := id.replace "-" " " }

/-! ## RightSideNav.tsx (lines 14-47, the Outline Panel) -/

/-- One rendered outline row: the destructured `id` (passed as the
`RightLink` prop), the `pl-${level}` indentation holder, and the
embedded `RightLink`. -/
structure OutlineRow where
  id : String
  level : Option String
  link : RightLinkView
  deriving Repr, DecidableEq

/-- `RightSideNav`: when `tags` is present, maps each tag string, in
order, to a row via `const [id, level] = link.split("_")`; when `tags`
is `undefined`, the `tags && ...` guard renders nothing. -/
def RightSideNav (dom : Dom) (tags : Option (List String)) : List OutlineRow :=
  match tags with
  | none => []
  | some ts =>
    ts.map (fun link =>
      let p := parseTag link
      { id := p.id, level := p.level, link := RightLink dom p.id })

/-! ## SmallDeviceNav.tsx (lines 17-43, the Mobile Outline Selector) -/

/-- One rendered mobile-selector row: a plain link to `#<id>` with
`pl-${level}` indentation and the hyphen-to-space label; no visibility
wiring. -/
structure SmallNavRow where
  id : String
  level : Option String
  href : String
  label : String
  deriving Repr, DecidableEq

/-- `SmallDeviceNav`: identical `tags && Array.from(tags).map` loop and
`split("_")` destructuring as `RightSideNav`, rendering `<Link
href={#id}>`; it never consults the DOM or an observer. -/
def SmallDeviceNav (tags : Option (List String)) : List SmallNavRow :=
  match tags with
  | none => []
  | some ts =>
    ts.map (fun link =>
      let p := parseTag link
      { id := p.id, level := p.level, href := "#" ++ p.id
        label := p.id.replace "-" " " })

/-! ## lib/constants.ts (lines 1-169): the static Category Index -/

/-- One navigable pattern document inside a category
(`constants.ts`). -/
structure PatternEntry where
  id : Nat
  name : String
  link : String
  image : String
  deriving Repr, DecidableEq

/-- One category with its ordered pattern list (`constants.ts`). -/
structure CategoryGroup where
  category : String
  list : List PatternEntry
  deriving Repr, DecidableEq

/-- The static `patterns` constant of `src/lib/constants.ts`. -/
def patterns : List CategoryGroup :=
  [ { category := "creational-patterns"
      list :=
        [ { id := 1, name := "factory-method"
            link := "/creational-patterns/factory-method"
            image := "https://refactoring.guru/images/patterns/cards/factory-method-mini.png" }
        , { id := 2, name := "abstract-factory"
            link := "/creational-patterns/abstract-factory"
            image := "https://refactoring.guru/images/patterns/cards/abstract-factory-mini.png" }
        , { id := 3, name := "builder"
            link := "/creational-patterns/builder"
            image := "https://refactoring.guru/images/patterns/cards/builder-mini.png" }
        , { id := 4, name := "prototype"
            link := "/creational-patterns/prototype"
            image := "https://refactoring.guru/images/patterns/cards/prototype-mini.png" }
        , { id := 5, name := "singleton"
            link := "/creational-patterns/singleton"
            image := "https://refactoring.guru/images/patterns/cards/singleton-mini.png" } ] }
  , { category := "structural-patterns"
      list :=
        [ { id := 1, name := "Adapter"
            link := "/structural-patterns/adapter"
            image := "https://refactoring.guru/images/patterns/cards/adapter-mini.png" }
        , { id := 2, name := "Bridge"
            link := "/structural-patterns/bridge"
            image := "https://refactoring.guru/images/patterns/cards/bridge-mini.png" }
        , { id := 3, name := "Composite"
            link := "/structural-patterns/composite"
            image := "https://refactoring.guru/images/patterns/cards/composite-mini.png" }
        , { id := 4, name := "Decorator"
            link := "/structural-patterns/decorator"
            image := "https://refactoring.guru/images/patterns/cards/decorator-mini.png" }
        , { id := 5, name := "Facade"
            link := "/structural-patterns/facade"
            image := "https://refactoring.guru/images/patterns/cards/facade-mini.png" }
        , { id := 6, name := "Flyweight"
            link := "/structural-patterns/flyweight"
            image := "https://refactoring.guru/images/patterns/cards/flyweight-mini.png" }
        , { id := 7, name := "Proxy"
            link := "/structural-patterns/proxy"
            image := "https://refactoring.guru/images/patterns/cards/proxy-mini.png" } ] }
  , { category := "behavioral-patterns"
      list :=
        [ { id := 1, name := "Chain of Responsibility"
            link := "/behavioral-patterns/chain-of-responsability"
            image := "https://refactoring.guru/images/patterns/cards/chain-of-responsibility-mini.png" }
        , { id := 2, name := "Command"
            link := "/behavioral-patterns/command"
            image := "https://refactoring.guru/images/patterns/cards/command-mini.png" }
        , { id := 3, name := "Iterator"
            link := "/behavioral-patterns/iterator"
            image := "https://refactoring.guru/images/patterns/cards/iterator-mini.png" }
        , { id := 4, name := "Mediator"
            link := "/behavioral-patterns/mediator"
            image := "https://refactoring.guru/images/patterns/cards/mediator-mini.png" }
        , { id := 5, name := "Memento"
            link := "/behavioral-patterns/memento"
            image := "https://refactoring.guru/images/patterns/cards/memento-mini.png" }
        , { id := 6, name := "Observer"
            link := "/behavioral-patterns/observer"
            image := "https://refactoring.guru/images/patterns/cards/observer-mini.png" }
        , { id := 7, name := "State"
            link := "/behavioral-patterns/state"
            image := "https://refactoring.guru/images/patterns/cards/state-mini.png" }
        , { id := 8, name := "Strategy"
            link := "/behavioral-patterns/strategy"
            image := "https://refactoring.guru/images/patterns/cards/strategy-mini.png" }
        , { id := 9, name := "Template Method"
            link := "/behavioral-patterns/template-method"
            image := "https://refactoring.guru/images/patterns/cards/template-method-mini.png" }
        , { id := 10, name := "Visitor"
            link := "/behavioral-patterns/visitor"
            image := "https://refactoring.guru/images/patterns/cards/visitor-mini.png" } ] }
  ]

/-- All pattern entries, flattened in render order. -/
def allPatternEntries : List PatternEntry :=
  (patterns.map (fun g => g.list)).flatten

/-! ## LeftSideNav.tsx: the Category Tree -/

/-- `pathname.split("/").at(-1) || ""` (LeftSideNav, route-derived
variant, line 161): the last path segment of the current URL; `at(-1)`
always exists since `split` never returns an empty array, and `|| ""`
maps an empty last segment to itself. -/
def lastSegment (pathname : String) : String :=
  (jsSplit pathname '/').getLastD ""

/-- One rendered Category Tree link: display data plus whether the
highlight class string (`bg-destructive/5 ... border-l-4 ...`) is
attached. -/
structure TreeEntry where
  name : String
  link : String
  highlighted : Bool
  deriving Repr, DecidableEq

/-- The highlight predicate of the tree link's `className` template:
`pattern.name === patternName` (LeftSideNav line 52). -/
def isHighlighted (patternName : String) (p : PatternEntry) : Bool :=
  p.name == patternName

/-- The Category Tree body: per category, per pattern, a link whose
highlight is decided by `isHighlighted`. -/
def LeftSideNavTree (patternName : String) : List (String × List TreeEntry) :=
  patterns.map (fun g =>
    (g.category,
     g.list.map (fun p =>
       { name := p.name, link := p.link
         highlighted := isHighlighted patternName p })))

/-- All tree links of `LeftSideNavTree`, flattened in render order. -/
def treeEntries (patternName : String) : List TreeEntry :=
  ((LeftSideNavTree patternName).map (fun c => c.2)).flatten

/-- The accordion's `defaultValue={["item-0", "item-1", "item-2"]}`
(LeftSideNav line 37): the sections open on first render. -/
def accordionDefaultValue : List String :=
  ["item-0", "item-1", "item-2"]

/-- The accordion item values actually rendered: `item-${i}` for each
index `i` of the `patterns` list (LeftSideNav lines 41-43). -/
def accordionItemValues : List String :=
  (List.range patterns.length).map (fun i => "item-" ++ toString i)

/-- The scroll-into-view effect of LeftSideNav (lines 21-32 of the
`getElementById` variant): looks up `patternName` in the document and
issues `ref.current?.scroll` with
`top: (currentPattern?.getBoundingClientRect().top || 0) + window.scrollY`.
A missing element contributes `0` (JS `undefined || 0`); the effect
always completes and returns the issued scroll offset. -/
def leftNavScrollTop (dom : Dom) (scrollY : Int) (patternName : String) : Int :=
  (((dom patternName).map (fun e => e.boundingTop)).getD 0) + scrollY

/-! ## app/[category]/page.tsx and app/[category]/(content)/[pattern]/page.tsx -/

/-- A contentlayer document as the pattern page consumes it:
`slugAsParams` plus the front-matter fields used for rendering. -/
structure Doc where
  slugAsParams : String
  title : String
  description : String
  tags : Option (List String)
  bodyCode : String
  deriving Repr, DecidableEq

/-- The outcome of a Next.js page handler in this app: either a
`redirect(target)` (an exception the framework catches) or a rendered
page. -/
inductive PageResult (α : Type) where
  | redirect (target : String)
  | rendered (content : α)
  deriving Repr, DecidableEq

/-- `getDocFromParams` of the pattern page: find the doc whose
`slugAsParams` equals `/${slug}`; `redirect("/")` when absent. -/
def getDocFromParams (allDocs : List Doc) (slug : String) : PageResult Doc :=
  match allDocs.find? (fun d => d.slugAsParams == "/" ++ slug) with
  | some doc => PageResult.rendered doc
  | none => PageResult.redirect "/"

/-- The category page handler (`app/[category]/page.tsx`): checks
`patterns.some(p => p.category === category)` and redirects to `/` when
no category matches, otherwise renders the title heading. -/
def categoryPage (category : String) : PageResult String :=
  if patterns.any (fun g => g.category == category)
  then PageResult.rendered (category.replace "-" " ")
  else PageResult.redirect "/"

/-- The rendered body of the pattern page: the mobile selector, the MDX
body, and the outline panel, all fed from the resolved doc. -/
structure PatternPageView where
  mobileNav : List SmallNavRow
  bodyCode : String
  outline : List OutlineRow
  deriving Repr, DecidableEq

/-- The pattern page handler
(`app/[category]/(content)/[pattern]/page.tsx`): resolves the doc via
`getDocFromParams` (redirecting to `/` when it is absent) and renders
`SmallDeviceNav`, `Mdx` and `RightSideNav` from it. -/
def patternPage (dom : Dom) (allDocs : List Doc) (pattern : String) :
    PageResult PatternPageView :=
  match getDocFromParams allDocs pattern with
  | PageResult.redirect t => PageResult.redirect t
  | PageResult.rendered doc =>
    PageResult.rendered
      { mobileNav := SmallDeviceNav doc.tags
        bodyCode := doc.bodyCode
        outline := RightSideNav dom doc.tags }

/-! ## content/en/state.mdx front matter -/

/-- The `tags` front-matter list of `src/content/en/state.mdx`
(lines 4-11). -/
def stateTags : List String :=
  [ "state-pattern_1"
  , "use-cases_2"
  , "1-stateful-components_6"
  , "2-workflow-management_6"
  , "3-game-development_6"
  , "advantages_2"
  , "disadvantages_2" ]

/-- An empty document snapshot: no element is ever found. -/
def emptyDom : Dom := fun _ => none

/-- The names of all pattern entries, in render order. -/
def allPatternNames : List String :=
  allPatternEntries.map (fun p => p.name)

/-- The `state` document as the pattern page resolves it (front matter
of `src/content/en/state.mdx`; the compiled MDX body is irrelevant to
the navigation claims and is left empty). -/
def stateDoc : Doc :=
  { slugAsParams := "/state"
    title := "State pattern"
    description := "Definition and example about the State pattern applied to the frontend"
    tags := some stateTags
    bodyCode := "" }

/-! ## Helper lemmas -/

theorem splitOnChar_ne_nil (sep : Char) (l : List Char) :
    splitOnChar sep l ≠ [] := by
  cases l with
  | nil => simp [splitOnChar]
  | cons c cs =>
    simp only [splitOnChar]
    split
    · simp
    · cases splitOnChar sep cs <;> simp [consHead]

theorem jsSplit_ne_nil (s : String) (sep : Char) : jsSplit s sep ≠ [] := by
  simp [jsSplit, splitOnChar_ne_nil]

/-- Splitting a separator-free list yields the single segment. -/
theorem splitOnChar_of_not_mem (sep : Char) (l : List Char)
    (h : sep ∉ l) : splitOnChar sep l = [l] := by
  induction l with
  | nil => rfl
  | cons c cs ih =>
    simp only [List.mem_cons, not_or] at h
    simp only [splitOnChar]
    rw [if_neg (fun hc => h.1 hc.symm), ih h.2]
    rfl

/-- Splitting `a ++ sep :: b` where `a` is separator-free peels off `a`
as the first segment. -/
theorem splitOnChar_append (sep : Char) (a b : List Char) (h : sep ∉ a) :
    splitOnChar sep (a ++ sep :: b) = a :: splitOnChar sep b := by
  induction a with
  | nil => simp [splitOnChar]
  | cons c cs ih =>
    simp only [List.mem_cons, not_or] at h
    simp only [List.cons_append, splitOnChar, List.append_eq]
    rw [if_neg (fun hc => h.1 hc.symm), ih h.2]
    rfl

/-- `String.mk s.data = s` (structure eta). -/
theorem string_mk_data (s : String) : String.mk s.data = s := rfl

/-- `parseTag` of a separator-free string: the whole string becomes the
id and the level is absent. -/
theorem parseTag_no_underscore (t : String) (h : '_' ∉ t.data) :
    parseTag t = { id := t, level := none } := by
  simp [parseTag, jsSplit, splitOnChar_of_not_mem _ _ h, string_mk_data]

/-- `parseTag (a ++ "_" ++ rest)` with `a` underscore-free: the id is
`a` and the level is the head segment of `rest`. -/
theorem parseTag_underscore (a b c : String)
    (ha : '_' ∉ a.data) (hb : '_' ∉ b.data) :
    parseTag (a ++ "_" ++ b ++ "_" ++ c) = { id := a, level := some b } := by
  have hdata : (a ++ "_" ++ b ++ "_" ++ c).data
      = a.data ++ '_' :: (b.data ++ '_' :: c.data) := by
    simp [String.data_append]
  simp only [parseTag, jsSplit, hdata]
  rw [splitOnChar_append _ _ _ ha, splitOnChar_append _ _ _ hb]
  simp [string_mk_data]

/-- The Category Tree's flat link list is the pointwise image of the
static pattern entries under the highlight decoration. -/
theorem treeEntries_eq (n : String) :
    treeEntries n = allPatternEntries.map (fun p =>
      { name := p.name, link := p.link
        highlighted := isHighlighted n p }) := rfl

/-- The 22 display names in `patterns` are pairwise distinct. -/
theorem allPatternNames_nodup : allPatternNames.Nodup := by decide

/-- In a list of entries with pairwise-distinct names, at most one entry
has a given name. -/
theorem countP_name_le_one (l : List PatternEntry) (n : String)
    (h : (l.map (fun q => q.name)).Nodup) :
    l.countP (fun q => q.name == n) ≤ 1 := by
  induction l with
  | nil => simp
  | cons q qs ih =>
    simp only [List.map_cons, List.nodup_cons] at h
    rw [List.countP_cons]
    by_cases hq : q.name = n
    · have hz : qs.countP (fun r => r.name == n) = 0 := by
        rw [List.countP_eq_zero]
        intro r hr hrn
        have hrn2 : r.name = n := by simpa using hrn
        exact h.1 (List.mem_map.mpr ⟨r, hr, hrn2.trans hq.symm⟩)
      simp [hz, hq]
    · have hb : (q.name == n) = false := by simpa using hq
      simpa [hb] using ih h.2

/-! ## Claim theorems -/

/-- C2: for every document tag list supplied to the Outline Panel, the
panel renders exactly one link per heading-tag entry, in the same order
as the supplied list, without reordering, deduplicating, or filtering:
the rendered list has the same length and its `i`-th row is exactly the
row derived from the `i`-th tag. -/
theorem outline_renders_all_tags_in_order (dom : Dom) (tags : List String)
    (i : Nat) ( _hi : i < tags.length) :
    (RightSideNav dom (some tags)).length = tags.length ∧
    (RightSideNav dom (some tags))[i]? =
      (tags[i]?).map (fun t =>
        { id := (parseTag t).id, level := (parseTag t).level
          link := RightLink dom (parseTag t).id }) := by
  constructor
  · simp [RightSideNav]
  · simp [RightSideNav, List.getElem?_map]

/-- Witness for C2: the Outline Panel row list of the `state` document
has one row per tag and its first row comes from the first tag. -/
theorem outline_renders_all_tags_in_order_witness :
    (RightSideNav emptyDom (some stateTags)).length = stateTags.length ∧
    (RightSideNav emptyDom (some stateTags))[0]? =
      (stateTags[0]?).map (fun t =>
        { id := (parseTag t).id, level := (parseTag t).level
          link := RightLink emptyDom (parseTag t).id }) :=
  outline_renders_all_tags_in_order emptyDom stateTags 0 (by decide)

/-- C6: on first render of the Category Tree, every top-level category
section is expanded: each accordion item value `item-${i}` rendered from
the static `patterns` list is contained in the accordion's configured
`defaultValue` open set. -/
theorem accordion_default_covers_categories :
    accordionItemValues.all
      (fun v => accordionDefaultValue.contains v) = true := by decide

/-- C7: for every tag list, the Mobile Outline Selector and the Outline
Panel compute the identical sequence of `(id, depth)` pairs — for any
DOM/visibility snapshot the Outline Panel is rendered against — and each
Mobile Outline Selector entry links to `#<id>`, its render depending on
nothing but the tag list (no visibility input). -/
theorem small_nav_matches_outline_pairs (dom : Dom)
    (tags : Option (List String)) :
    (SmallDeviceNav tags).map (fun r => (r.id, r.level)) =
      (RightSideNav dom tags).map (fun r => (r.id, r.level)) ∧
    (SmallDeviceNav tags).map (fun r => r.href) =
      (SmallDeviceNav tags).map (fun r => "#" ++ r.id) := by
  cases tags <;> simp [SmallDeviceNav, RightSideNav]

/-- C8: when the Outline Panel's tag list input is `undefined`/absent,
the panel renders zero heading links (and, being a total function,
raises no error). -/
theorem outline_empty_on_absent_tags (dom : Dom) :
    RightSideNav dom none = [] := rfl

/-- C9: `split("_")`-based tag parsing, shared by the Outline Panel and
the Mobile Outline Selector, is a total function (it never throws): a
tag with no underscore yields the whole string as id and an absent
(`undefined`) depth, and a tag with two or more underscores yields the
text before the first underscore as id and the segment between the
first and second underscore as depth, discarding all later segments. -/
theorem tag_split_total_semantics (t a b c : String)
    (ht : '_' ∉ t.data) (ha : '_' ∉ a.data) (hb : '_' ∉ b.data) :
    parseTag t = { id := t, level := none } ∧
    parseTag (a ++ "_" ++ b ++ "_" ++ c) = { id := a, level := some b } := by
  exact ⟨parseTag_no_underscore t ht, parseTag_underscore a b c ha hb⟩

/-- Witness for C9: the underscore-free tag `advantages` parses to
itself with no depth, and `pre_4_x_y` parses to id `pre`, depth `4`,
with the trailing `x_y` discarded. -/
theorem tag_split_total_semantics_witness :
    parseTag "advantages" = { id := "advantages", level := none } ∧
    parseTag ("pre" ++ "_" ++ "4" ++ "_" ++ "x_y") =
      { id := "pre", level := some "4" } :=
  tag_split_total_semantics "advantages" "pre" "4" "x_y"
    (by decide) (by decide) (by decide)

/-- C3 counterexample: the `state` document's tag list is not the
three-element list the claim names — it has seven entries — so the
Outline Panel for `state` renders 7 links, not 3. -/
theorem state_scenario_counterexample :
    stateTags ≠ ["state-pattern_1", "use-cases_2", "1-stateful-components_6"] ∧
    (RightSideNav emptyDom (some stateTags)).length = 7 ∧
    ¬ (RightSideNav emptyDom (some stateTags)).length = 3 := by
  refine ⟨by decide, ?_, ?_⟩ <;> simp [RightSideNav, stateTags]

/-- C3 amended: every heading-tag string of the form `<slug>_<depth>`
with an underscore-free slug and depth splits into the slug (link
target `#<slug>`) and the depth; for the document `state`, whose tag
list has seven entries, the Outline Panel renders exactly 7 links with
ids `state-pattern`, `use-cases`, `1-stateful-components`,
`2-workflow-management`, `3-game-development`, `advantages`,
`disadvantages` at depths 1, 2, 6, 6, 6, 2, 2; in particular the first
three are the ones the original scenario names, at depths 1, 2, 6. -/
theorem state_outline_amended (slug depth : String)
    (hs : '_' ∉ slug.data) (hd : '_' ∉ depth.data) :
    (parseTag (slug ++ "_" ++ depth) = { id := slug, level := some depth } ∧
     (RightLink emptyDom (parseTag (slug ++ "_" ++ depth)).id).href
       = "#" ++ slug) ∧
    (RightSideNav emptyDom (some stateTags)).map (fun r => (r.id, r.level)) =
      [ ("state-pattern", some "1")
      , ("use-cases", some "2")
      , ("1-stateful-components", some "6")
      , ("2-workflow-management", some "6")
      , ("3-game-development", some "6")
      , ("advantages", some "2")
      , ("disadvantages", some "2") ] ∧
    (RightSideNav emptyDom (some stateTags)).length = 7 := by
  have hp : parseTag (slug ++ "_" ++ depth)
      = { id := slug, level := some depth } := by
    have hdata : (slug ++ "_" ++ depth).data
        = slug.data ++ '_' :: depth.data := by
      simp [String.data_append]
    simp only [parseTag, jsSplit, hdata]
    rw [splitOnChar_append _ _ _ hs, splitOnChar_of_not_mem _ _ hd]
    simp [string_mk_data]
  refine ⟨⟨hp, ?_⟩, ?_, ?_⟩
  · rw [hp]; rfl
  · simp [RightSideNav, stateTags, parseTag, jsSplit, splitOnChar, consHead]
  · simp [RightSideNav, stateTags]

/-- Witness for the amended C3: instantiated at slug `use-cases`,
depth `2`. -/
theorem state_outline_amended_witness :
    (parseTag ("use-cases" ++ "_" ++ "2")
       = { id := "use-cases", level := some "2" } ∧
     (RightLink emptyDom (parseTag ("use-cases" ++ "_" ++ "2")).id).href
       = "#" ++ "use-cases") ∧
    (RightSideNav emptyDom (some stateTags)).map (fun r => (r.id, r.level)) =
      [ ("state-pattern", some "1")
      , ("use-cases", some "2")
      , ("1-stateful-components", some "6")
      , ("2-workflow-management", some "6")
      , ("3-game-development", some "6")
      , ("advantages", some "2")
      , ("disadvantages", some "2") ] ∧
    (RightSideNav emptyDom (some stateTags)).length = 7 :=
  state_outline_amended "use-cases" "2" (by decide) (by decide)

/-- C5: when a looked-up DOM element is absent (`getElementById`
returns `null`), the visibility and scroll operations are silent
no-ops: the heading link's visibility signal is `false` (the observer
never yields an entry), and the Category Tree scroll effect completes,
issuing `top = 0 + window.scrollY`; both are total functions, so
nothing throws. -/
theorem missing_dom_target_noop (dom : Dom) (id patternName : String)
    (scrollY : Int) (hid : dom id = none) (hpat : dom patternName = none) :
    (RightLink dom id).isVisible = false ∧
    observerEntry dom id = none ∧
    leftNavScrollTop dom scrollY patternName = scrollY := by
  refine ⟨?_, ?_, ?_⟩
  · simp [RightLink, observerEntry, hid]
  · simp [observerEntry, hid]
  · simp [leftNavScrollTop, hpat]

/-- Witness for C5: in the empty document no heading is ever visible
and the tree scroll resolves to the current `scrollY`. -/
theorem missing_dom_target_noop_witness :
    (RightLink emptyDom "state-pattern").isVisible = false ∧
    observerEntry emptyDom "state-pattern" = none ∧
    leftNavScrollTop emptyDom 42 "factory-method" = 42 :=
  missing_dom_target_noop emptyDom "state-pattern" "factory-method" 42 rfl rfl

/-- C1: for every pattern entry present in the Category Tree, whenever
the current route's last path segment equals the entry's name (the
identity compared verbatim), that entry's tree link carries the
highlight style, every highlighted link carries that name, and exactly
one link in the whole tree is highlighted. -/
theorem highlight_matches_route (pathname : String) (p : PatternEntry)
    (hp : p ∈ allPatternEntries) (hroute : lastSegment pathname = p.name) :
    (∃ e ∈ treeEntries (lastSegment pathname),
        e.name = p.name ∧ e.highlighted = true) ∧
    (∀ e ∈ treeEntries (lastSegment pathname),
        e.highlighted = true → e.name = p.name) ∧
    (treeEntries (lastSegment pathname)).countP (fun e => e.highlighted)
      = 1 := by
  rw [hroute, treeEntries_eq]
  refine ⟨?_, ?_, ?_⟩
  · exact ⟨_, List.mem_map_of_mem _ hp, rfl, by simp [isHighlighted]⟩
  · intro e he htrue
    obtain ⟨q, hq, rfl⟩ := List.mem_map.mp he
    simpa [isHighlighted] using htrue
  · rw [List.countP_map]
    have hle := countP_name_le_one allPatternEntries p.name
      (by decide)
    have hge : 0 < allPatternEntries.countP (fun q => q.name == p.name) :=
      List.countP_pos_iff.mpr ⟨p, hp, by simp⟩
    show allPatternEntries.countP (fun q => q.name == p.name) = 1
    omega

/-- Witness for C1: navigating to `/creational-patterns/factory-method`
highlights exactly the `factory-method` tree entry. -/
theorem highlight_matches_route_witness :
    (∃ e ∈ treeEntries (lastSegment "/creational-patterns/factory-method"),
        e.name = "factory-method" ∧ e.highlighted = true) ∧
    (∀ e ∈ treeEntries (lastSegment "/creational-patterns/factory-method"),
        e.highlighted = true → e.name = "factory-method") ∧
    (treeEntries (lastSegment "/creational-patterns/factory-method")).countP
        (fun e => e.highlighted) = 1 :=
  highlight_matches_route "/creational-patterns/factory-method"
    { id := 1, name := "factory-method"
      link := "/creational-patterns/factory-method"
      image := "https://refactoring.guru/images/patterns/cards/factory-method-mini.png" }
    (by decide) (by decide)

/-- C10: the 22 display names in the static `patterns` list are
pairwise distinct, so for every `patternName` input at most one entry
of the rendered Category Tree carries the highlight style. -/
theorem at_most_one_highlight (patternName : String) :
    allPatternNames.Nodup ∧
    (treeEntries patternName).countP (fun e => e.highlighted) ≤ 1 := by
  refine ⟨allPatternNames_nodup, ?_⟩
  rw [treeEntries_eq, List.countP_map]
  show allPatternEntries.countP (fun q => q.name == patternName) ≤ 1
  exact countP_name_le_one allPatternEntries patternName
    (allPatternNames_nodup)

/-- C4: a requested category path not matching any static category, or
a pattern path whose slug resolves to no document, makes the page
handler redirect to the site root `/`; a path that resolves renders the
document (the category title page, or the doc-driven pattern page)
without redirecting. -/
theorem unknown_path_redirects_root (dom : Dom) (allDocs : List Doc)
    (category pat : String) :
    (categoryPage category = PageResult.redirect "/" ↔
        ¬ ∃ g ∈ patterns, g.category = category) ∧
    ((∃ g ∈ patterns, g.category = category) →
        categoryPage category
          = PageResult.rendered (category.replace "-" " ")) ∧
    (patternPage dom allDocs pat = PageResult.redirect "/" ↔
        ¬ ∃ d ∈ allDocs, d.slugAsParams = "/" ++ pat) ∧
    (∀ d, getDocFromParams allDocs pat = PageResult.rendered d →
        d ∈ allDocs ∧ d.slugAsParams = "/" ++ pat ∧
        patternPage dom allDocs pat = PageResult.rendered
          { mobileNav := SmallDeviceNav d.tags
            bodyCode := d.bodyCode
            outline := RightSideNav dom d.tags }) := by
  refine ⟨?_, ?_, ?_, ?_⟩
  · unfold categoryPage
    by_cases hb : patterns.any (fun g => g.category == category) = true
    · rw [if_pos hb]
      simp only [List.any_eq_true, beq_iff_eq] at hb
      simp [hb]
    · rw [if_neg hb]
      simp only [List.any_eq_true, beq_iff_eq] at hb
      simp [hb]
  · intro hex
    unfold categoryPage
    rw [if_pos (by simpa [List.any_eq_true] using hex)]
  · unfold patternPage getDocFromParams
    cases hfind : allDocs.find? (fun d => d.slugAsParams == "/" ++ pat) with
    | none =>
      have hnone := List.find?_eq_none.mp hfind
      simp only [beq_iff_eq] at hnone
      simp
      exact hnone
    | some d =>
      have hmem := List.mem_of_find?_eq_some hfind
      have hslug : d.slugAsParams = "/" ++ pat := by
        simpa using List.find?_some hfind
      simp
      exact ⟨d, hmem, hslug⟩
  · intro d hd
    unfold getDocFromParams at hd
    cases hfind : allDocs.find? (fun x => x.slugAsParams == "/" ++ pat) with
    | none => rw [hfind] at hd; exact absurd hd (by simp)
    | some d0 =>
      rw [hfind] at hd
      have hde : d0 = d := by simpa using hd
      subst hde
      refine ⟨List.mem_of_find?_eq_some hfind, ?_, ?_⟩
      · simpa using List.find?_some hfind
      · unfold patternPage getDocFromParams
        rw [hfind]

/-- Witness for C4: with the `state` document registered, the category
path `creational-patterns` and the pattern slug `state` resolve, while
the redirect characterizations hold for them. -/
theorem unknown_path_redirects_root_witness :
    (categoryPage "creational-patterns" = PageResult.redirect "/" ↔
        ¬ ∃ g ∈ patterns, g.category = "creational-patterns") ∧
    ((∃ g ∈ patterns, g.category = "creational-patterns") →
        categoryPage "creational-patterns"
          = PageResult.rendered ("creational-patterns".replace "-" " ")) ∧
    (patternPage emptyDom [stateDoc] "state" = PageResult.redirect "/" ↔
        ¬ ∃ d ∈ [stateDoc], d.slugAsParams = "/" ++ "state") ∧
    (∀ d, getDocFromParams [stateDoc] "state" = PageResult.rendered d →
        d ∈ [stateDoc] ∧ d.slugAsParams = "/" ++ "state" ∧
        patternPage emptyDom [stateDoc] "state" = PageResult.rendered
          { mobileNav := SmallDeviceNav d.tags
            bodyCode := d.bodyCode
            outline := RightSideNav emptyDom d.tags }) :=
  unknown_path_redirects_root emptyDom [stateDoc] "creational-patterns" "state"
